import Mathlib

/-!
Shallow embedding of the runtime-detector library.

The embedding follows the TypeScript sources:
  - src/utils/version.ts        (getBrowserVersion)
  - src/constants/environments.ts (the ordered environment registry)
  - src/utils/detector.ts       (getCurrentEnvironment, the derived boolean
                                 flags, and the two guard factories
                                 getFunctionExecuteInEnvironment and
                                 getFunctionExecuteInEnvironmentAsync)

Ambient JavaScript global state is modelled explicitly as a record of the
globals the detection predicates read (window, document, navigator, Bun,
Deno, process).  A global binding whose value is `undefined` is modelled as
absence of the binding.  JavaScript exceptions are modelled with
`Except String`; the error string carries the thrown message.
-/

/-- Model of JavaScript string falsiness for `Option String` values:
`undefined` and the empty string are falsy, every other string is truthy. -/
def optTruthy : Option String → Bool
  | some s => s != ""
  | none => false

/-- Model of the JavaScript expression `v || d` where `v` is a string or
`undefined` and `d` is a string default. -/
def jsOrStr : Option String → String → String
  | some s, d => if s = "" then d else s
  | none, d => d

/-- Whether the character list `pat` occurs at the head of `cs`. -/
def leadsWith : List Char → List Char → Bool
  | [], _ => true
  | _ :: _, [] => false
  | p :: ps, c :: cs => p == c && leadsWith ps cs

/-- Whether the character list `pat` occurs anywhere in `cs`; with a
nonempty pattern this is JavaScript `String.prototype.includes`. -/
def hasSeq (pat : List Char) : List Char → Bool
  | [] => leadsWith pat []
  | c :: rest => leadsWith pat (c :: rest) || hasSeq pat rest

/-- Model of JavaScript `s.includes(pat)` for a nonempty pattern. -/
def jsIncludes (s pat : String) : Bool := hasSeq pat.data s.data

/-- Fuel-indexed worker for `jsSplit`.  The fuel starts at one more than
the length of the input, which the scan can never exhaust, so the fuel
branch is unreachable; it only makes the recursion structural. -/
def jsSplitAux (sep : List Char) : Nat → List Char → List Char → List (List Char)
  | 0, cs, acc => [acc ++ cs]
  | _ + 1, [], acc => [acc]
  | fuel + 1, c :: rest, acc =>
    if leadsWith sep (c :: rest) then
      acc :: jsSplitAux sep fuel (List.drop sep.length (c :: rest)) []
    else
      jsSplitAux sep fuel rest (acc ++ [c])

/-- Model of JavaScript `s.split(sep)` for a nonempty string separator. -/
def jsSplit (s sep : String) : List String :=
  (jsSplitAux sep.data (s.data.length + 1) s.data []).map String.mk

/-- The five runtime names of src/types/index.ts (`EnvironmentName`);
`Unknown` is the sentinel for an unrecognized host. -/
inductive EnvironmentName where
  | Browser
  | Nodejs
  | Bun
  | Deno
  | Unknown
deriving DecidableEq

/-- The result record of one detection pass (src/types/index.ts
`EnvironmentInfo`); `browserName` is absent outside the Browser case. -/
structure EnvironmentInfo where
  name : EnvironmentName
  version : String
  browserName : Option String
deriving DecidableEq

/-- The ambient `navigator` global: its `userAgent` property, which may be
absent (`undefined`). -/
structure NavigatorVal where
  userAgent : Option String
deriving DecidableEq

/-- The ambient `Bun` global: its `version` property. -/
structure BunVal where
  version : Option String
deriving DecidableEq

/-- The `version` property of the ambient `Deno` global: its `deno` field. -/
structure DenoVersionVal where
  deno : Option String
deriving DecidableEq

/-- The ambient `Deno` global: its `version` property. -/
structure DenoVal where
  version : Option DenoVersionVal
deriving DecidableEq

/-- The `versions` property of the ambient `process` global. -/
structure VersionsVal where
  node : Option String
deriving DecidableEq

/-- The ambient `process` global: its `version` and `versions` properties. -/
structure ProcessVal where
  version : Option String
  versions : Option VersionsVal
deriving DecidableEq

/-- One ambient global state: which of the globals read by the detection
predicates are present, and their relevant contents.  `window` and
`document` carry only presence because the code only applies `typeof` to
them. -/
structure Ambient where
  window : Bool
  document : Bool
  navigator : Option NavigatorVal
  bun : Option BunVal
  deno : Option DenoVal
  process : Option ProcessVal
deriving DecidableEq

/-- The (name, version) pair produced by user-agent parsing
(src/utils/version.ts `BrowserInfo`). -/
structure BrowserInfo where
  name : String
  version : String
deriving DecidableEq

/-- Embedding of `getBrowserVersion` (src/utils/version.ts, lines 27 to 51):
`const userAgent = navigator.userAgent || ""` followed by ordered marker
checks Firefox/, Edg/, Chrome/, Safari/.  Each branch evaluates
`userAgent.split(marker)[1].split(" ")[0]`; indexing past the end of the
split yields `undefined`, and calling `.split` on it throws, which the
embedding surfaces as `Except.error`.  Reading `navigator.userAgent` with
no `navigator` binding throws a ReferenceError. -/
def getBrowserVersion (nav : Option NavigatorVal) : Except String BrowserInfo :=
  match nav with
  | none => Except.error "ReferenceError: navigator is not defined"
  | some n =>
    let userAgent := jsOrStr n.userAgent ""
    if jsIncludes userAgent "Firefox/" then
      match (jsSplit userAgent "Firefox/").get? 1 with
      | some t => Except.ok { name := "Firefox", version := (jsSplit t " ").headD "" }
      | none => Except.error "TypeError: Cannot read properties of undefined (reading 'split')"
    else if jsIncludes userAgent "Edg/" then
      match (jsSplit userAgent "Edg/").get? 1 with
      | some t => Except.ok { name := "Edge", version := (jsSplit t " ").headD "" }
      | none => Except.error "TypeError: Cannot read properties of undefined (reading 'split')"
    else if jsIncludes userAgent "Chrome/" then
      match (jsSplit userAgent "Chrome/").get? 1 with
      | some t => Except.ok { name := "Chrome", version := (jsSplit t " ").headD "" }
      | none => Except.error "TypeError: Cannot read properties of undefined (reading 'split')"
    else if jsIncludes userAgent "Safari/" then
      match (jsSplit userAgent "Version/").get? 1 with
      | some t => Except.ok { name := "Safari", version := (jsSplit t " ").headD "" }
      | none => Except.error "TypeError: Cannot read properties of undefined (reading 'split')"
    else
      Except.ok { name := "Unknown", version := "unknown" }

/-- One entry of the environment registry (src/types/index.ts
`Environment`): a detection predicate over ambient state, the runtime
name, a version accessor, and the optional browser-name accessor. -/
structure Environment where
  detect : Ambient → Bool
  name : EnvironmentName
  getVersion : Ambient → Except String String
  getBrowserName : Option (Ambient → Except String String)

/-- Browser descriptor (src/constants/environments.ts): detect is
`typeof window !== "undefined" && typeof document !== "undefined"`;
version and browser name come from `getBrowserVersion`. -/
def browserEnv : Environment where
  detect := fun a => a.window && a.document
  name := EnvironmentName.Browser
  getVersion := fun a => (getBrowserVersion a.navigator).map BrowserInfo.version
  getBrowserName := some fun a => (getBrowserVersion a.navigator).map BrowserInfo.name

/-- Bun descriptor (src/constants/environments.ts): detect is presence of
the `Bun` global; version is `Bun?.version || "unknown"`. -/
def bunEnv : Environment where
  detect := fun a => a.bun.isSome
  name := EnvironmentName.Bun
  getVersion := fun a => Except.ok (jsOrStr (a.bun.bind BunVal.version) "unknown")
  getBrowserName := none

/-- Deno descriptor (src/constants/environments.ts): detect is presence of
the `Deno` global; version is `Deno?.version?.deno || "unknown"`. -/
def denoEnv : Environment where
  detect := fun a => a.deno.isSome
  name := EnvironmentName.Deno
  getVersion := fun a =>
    Except.ok (jsOrStr ((a.deno.bind DenoVal.version).bind DenoVersionVal.deno) "unknown")
  getBrowserName := none

/-- Node.js descriptor (src/constants/environments.ts): detect is
`typeof process !== "undefined" && !!process.versions?.node` negatively
gated on absence of the `Bun` and `Deno` globals; version is
`process?.version || "unknown"`. -/
def nodejsEnv : Environment where
  detect := fun a =>
    a.process.isSome
      && optTruthy ((a.process.bind ProcessVal.versions).bind VersionsVal.node)
      && !a.bun.isSome
      && !a.deno.isSome
  name := EnvironmentName.Nodejs
  getVersion := fun a => Except.ok (jsOrStr (a.process.bind ProcessVal.version) "unknown")
  getBrowserName := none

/-- The ordered environment registry `environments`
(src/constants/environments.ts).  `Object.values` iterates string keys in
insertion order, so the iteration order is Browser, Bun, Deno, Nodejs. -/
def environments : List Environment := [browserEnv, bunEnv, denoEnv, nodejsEnv]

/-- Embedding of the older Node.js detection predicate kept in
src/constants/environments.ts (first copy, lines 33 to 41): it reads
`process.versions.node` without optional chaining, so a `process` global
with no `versions` property makes the read throw a TypeError. -/
def nodejsDetectLegacy (a : Ambient) : Except String Bool :=
  match a.process with
  | none => Except.ok false
  | some p =>
    match p.versions with
    | none => Except.error "TypeError: Cannot read properties of undefined (reading 'node')"
    | some vs => Except.ok (optTruthy vs.node && !a.bun.isSome && !a.deno.isSome)

/-- The first-match loop of `getCurrentEnvironment`
(src/utils/detector.ts, lines 26 to 46): iterate descriptors in registry
order, return the first whose `detect` holds, with `getVersion` (and, for
Browser, `getBrowserName`); when nothing matches, return the sentinel
`{ name: "Unknown", version: "unknown" }`. -/
def detectLoop : List Environment → Ambient → Except String EnvironmentInfo
  | [], _ => Except.ok { name := EnvironmentName.Unknown, version := "unknown", browserName := none }
  | e :: rest, a =>
    if e.detect a then
      if e.name = EnvironmentName.Browser then
        match e.getVersion a with
        | Except.error msg => Except.error msg
        | Except.ok v =>
          match e.getBrowserName with
          | some f =>
            match f a with
            | Except.error msg => Except.error msg
            | Except.ok bn => Except.ok { name := e.name, version := v, browserName := some bn }
          | none => Except.ok { name := e.name, version := v, browserName := none }
      else
        match e.getVersion a with
        | Except.error msg => Except.error msg
        | Except.ok v => Except.ok { name := e.name, version := v, browserName := none }
    else
      detectLoop rest a

/-- Embedding of `getCurrentEnvironment` (src/utils/detector.ts, lines 26
to 46), parametrized by the ambient global state it reads. -/
def getCurrentEnvironment (a : Ambient) : Except String EnvironmentInfo :=
  detectLoop environments a

/-- Flag `isBrowser` (src/utils/detector.ts, line 80), derived from the
snapshot name. -/
def isBrowser (env : EnvironmentInfo) : Bool := env.name == EnvironmentName.Browser

/-- Flag `isNodejs` (src/utils/detector.ts, line 95). -/
def isNodejs (env : EnvironmentInfo) : Bool := env.name == EnvironmentName.Nodejs

/-- Flag `isBun` (src/utils/detector.ts, line 110). -/
def isBun (env : EnvironmentInfo) : Bool := env.name == EnvironmentName.Bun

/-- Flag `isDeno` (src/utils/detector.ts, line 125). -/
def isDeno (env : EnvironmentInfo) : Bool := env.name == EnvironmentName.Deno

/-- Flag `isUnknown` (src/utils/detector.ts, line 691); the sentinel flag
the spec calls isUnrecognized. -/
def isUnknown (env : EnvironmentInfo) : Bool := env.name == EnvironmentName.Unknown

/-- Flag `isNotBrowser` (src/utils/detector.ts, line 140). -/
def isNotBrowser (env : EnvironmentInfo) : Bool := !isBrowser env

/-- Flag `isNotNodejs` (src/utils/detector.ts, line 155). -/
def isNotNodejs (env : EnvironmentInfo) : Bool := !isNodejs env

/-- Flag `isNotBun` (src/utils/detector.ts, line 170). -/
def isNotBun (env : EnvironmentInfo) : Bool := !isBun env

/-- Flag `isNotDeno` (src/utils/detector.ts, line 185). -/
def isNotDeno (env : EnvironmentInfo) : Bool := !isDeno env

/-- Flag `isNotUnknown` (src/utils/detector.ts, line 709). -/
def isNotUnknown (env : EnvironmentInfo) : Bool := !isUnknown env

/-- A settled JavaScript promise: resolved with a value (where `none`
models resolving to null or undefined) or rejected with an error
message. -/
inductive PromiseVal (T : Type) where
  | resolved : Option T → PromiseVal T
  | rejected : String → PromiseVal T
deriving DecidableEq

/-- The value a callback returns: a plain non-nullish value, null or
undefined, or a promise. -/
inductive CallbackResult (T : Type) where
  | value : T → CallbackResult T
  | nullish : CallbackResult T
  | promise : PromiseVal T → CallbackResult T
deriving DecidableEq

/-- Observable outcome of one synchronous guard invocation: how many
times the callback ran, and the returned value (`Except.ok none` models
returning `undefined`, `Except.error` models a throw). -/
structure SyncGuardOutcome (T : Type) where
  calls : Nat
  result : Except String (Option T)

/-- Observable outcome of one asynchronous guard invocation: how many
times the callback ran, and the promise the guard returns. -/
structure AsyncGuardOutcome (T : Type) where
  calls : Nat
  result : PromiseVal T

/-- Embedding of the synchronous guard factory
`getFunctionExecuteInEnvironment` (src/utils/detector.ts, lines 461 to
473): when the condition holds, invoke the callback once; a promise
result throws `"callback must be a sync function"`, otherwise the result
is returned with `result ?? undefined` normalization.  When the condition
fails, return `undefined` without invoking the callback.  The module
constant `currentEnv` is passed explicitly. -/
def getFunctionExecuteInEnvironment {T : Type} (condition : Bool)
    (currentEnv : EnvironmentInfo)
    (callback : EnvironmentInfo → CallbackResult T) : SyncGuardOutcome T :=
  if condition then
    match callback currentEnv with
    | CallbackResult.promise _ =>
      { calls := 1, result := Except.error "callback must be a sync function" }
    | CallbackResult.value t => { calls := 1, result := Except.ok (some t) }
    | CallbackResult.nullish => { calls := 1, result := Except.ok none }
  else
    { calls := 0, result := Except.ok none }

/-- Embedding of the asynchronous guard factory
`getFunctionExecuteInEnvironmentAsync` (src/utils/detector.ts, lines 212
to 225): when the condition holds, invoke the callback once; a
non-promise result throws (the async function rejects with
`"callback must return a Promise"`), a promise result is adopted, so the
guard settles the same way the callback promise does.  When the condition
fails, resolve to `undefined` without invoking the callback. -/
def getFunctionExecuteInEnvironmentAsync {T : Type} (condition : Bool)
    (currentEnv : EnvironmentInfo)
    (callback : EnvironmentInfo → CallbackResult T) : AsyncGuardOutcome T :=
  if condition then
    match callback currentEnv with
    | CallbackResult.promise p => { calls := 1, result := p }
    | _ => { calls := 1, result := PromiseVal.rejected "callback must return a Promise" }
  else
    { calls := 0, result := PromiseVal.resolved none }

/-- Negative guard `onNotBrowser` (src/utils/detector.ts, lines 578 to
580), built with condition `!isBrowser && currentEnv.name !== "Unknown"`. -/
def onNotBrowser {T : Type} (env : EnvironmentInfo)
    (cb : EnvironmentInfo → CallbackResult T) : SyncGuardOutcome T :=
  getFunctionExecuteInEnvironment (!isBrowser env && !(env.name == EnvironmentName.Unknown)) env cb

/-- Negative guard `onNotNodejs` (src/utils/detector.ts, lines 602 to 604). -/
def onNotNodejs {T : Type} (env : EnvironmentInfo)
    (cb : EnvironmentInfo → CallbackResult T) : SyncGuardOutcome T :=
  getFunctionExecuteInEnvironment (!isNodejs env && !(env.name == EnvironmentName.Unknown)) env cb

/-- Negative guard `onNotBun` (src/utils/detector.ts, lines 625 to 627). -/
def onNotBun {T : Type} (env : EnvironmentInfo)
    (cb : EnvironmentInfo → CallbackResult T) : SyncGuardOutcome T :=
  getFunctionExecuteInEnvironment (!isBun env && !(env.name == EnvironmentName.Unknown)) env cb

/-- Negative guard `onNotDeno` (src/utils/detector.ts, lines 648 to 650). -/
def onNotDeno {T : Type} (env : EnvironmentInfo)
    (cb : EnvironmentInfo → CallbackResult T) : SyncGuardOutcome T :=
  getFunctionExecuteInEnvironment (!isDeno env && !(env.name == EnvironmentName.Unknown)) env cb

/-- Negative guard `onNotBrowserAsync` (src/utils/detector.ts, lines 336
to 338). -/
def onNotBrowserAsync {T : Type} (env : EnvironmentInfo)
    (cb : EnvironmentInfo → CallbackResult T) : AsyncGuardOutcome T :=
  getFunctionExecuteInEnvironmentAsync (!isBrowser env && !(env.name == EnvironmentName.Unknown)) env cb

/-- Negative guard `onNotNodejsAsync` (src/utils/detector.ts, lines 360
to 362). -/
def onNotNodejsAsync {T : Type} (env : EnvironmentInfo)
    (cb : EnvironmentInfo → CallbackResult T) : AsyncGuardOutcome T :=
  getFunctionExecuteInEnvironmentAsync (!isNodejs env && !(env.name == EnvironmentName.Unknown)) env cb

/-- Negative guard `onNotBunAsync` (src/utils/detector.ts, lines 384 to
386). -/
def onNotBunAsync {T : Type} (env : EnvironmentInfo)
    (cb : EnvironmentInfo → CallbackResult T) : AsyncGuardOutcome T :=
  getFunctionExecuteInEnvironmentAsync (!isBun env && !(env.name == EnvironmentName.Unknown)) env cb

/-- Negative guard `onNotDenoAsync` (src/utils/detector.ts, lines 408 to
410). -/
def onNotDenoAsync {T : Type} (env : EnvironmentInfo)
    (cb : EnvironmentInfo → CallbackResult T) : AsyncGuardOutcome T :=
  getFunctionExecuteInEnvironmentAsync (!isDeno env && !(env.name == EnvironmentName.Unknown)) env cb

/-- The ambient state with none of the detectable globals present. -/
def emptyAmbient : Ambient :=
  { window := false, document := false, navigator := none,
    bun := none, deno := none, process := none }

/-- An ambient state where the Bun global, the Deno global and a
Node-like process are all present, with no window or document. -/
def bunDenoNodeAmbient : Ambient :=
  { window := false, document := false, navigator := none,
    bun := some { version := some "1.1.0" },
    deno := some { version := some { deno := some "2.1.1" } },
    process := some { version := some "v16.0.0", versions := some { node := some "16.0.0" } } }

/-- A sample detection snapshot naming the Unrecognized sentinel, used by
concrete witnesses. -/
def sampleUnknownEnv : EnvironmentInfo :=
  { name := EnvironmentName.Unknown, version := "unknown", browserName := none }

theorem detectLoop_skip (e : Environment) (rest : List Environment) (a : Ambient)
    (h : e.detect a = false) : detectLoop (e :: rest) a = detectLoop rest a := by
  simp [detectLoop, h]

theorem detectLoop_hit (e : Environment) (rest : List Environment) (a : Ambient)
    (h : e.detect a = true) (hn : ¬ e.name = EnvironmentName.Browser) (v : String)
    (hv : e.getVersion a = Except.ok v) :
    detectLoop (e :: rest) a
      = Except.ok { name := e.name, version := v, browserName := none } := by
  simp [detectLoop, h, hn, hv]

/-- Sanity evaluation: a Node-like ambient state detects as Nodejs with
the process version string, matching the test suite scenario. -/
theorem nodejs_scenario_eval : getCurrentEnvironment
    { window := false, document := false, navigator := none,
      bun := none, deno := none,
      process := some { version := some "v16.0.0", versions := some { node := some "16.0.0" } } }
    = Except.ok { name := EnvironmentName.Nodejs, version := "v16.0.0", browserName := none } := rfl

/-- Sanity evaluation: a Chrome user agent parses to the Chrome marker
version, matching the test suite scenario. -/
theorem chrome_ua_eval : getBrowserVersion
    (some { userAgent := some "Mozilla/5.0 Chrome/91.0.4472.124 Safari/537.36" })
    = Except.ok { name := "Chrome", version := "91.0.4472.124" } := rfl

/-- C1 counterexample: the claim as stated quantifies over every ambient
global state, but the Browser descriptor precedes Bun in the registry, so
a state with window and document present yields Browser even when both
the Bun and Deno globals are present; and the Deno clause also fails when
the Bun global is present, because Bun precedes Deno.  Both universal
statements of the claim are refuted at explicit concrete inputs. -/
theorem detection_priority_counterexample :
    (¬ ∀ a : Ambient, a.bun.isSome = true → a.deno.isSome = true →
        ∃ info, getCurrentEnvironment a = Except.ok info ∧ info.name = EnvironmentName.Bun)
    ∧ (¬ ∀ a : Ambient, a.deno.isSome = true → a.process.isSome = true →
        optTruthy ((a.process.bind ProcessVal.versions).bind VersionsVal.node) = true →
        ∃ info, getCurrentEnvironment a = Except.ok info ∧ info.name = EnvironmentName.Deno) := by
  constructor
  · intro h
    obtain ⟨info, heq, hname⟩ := h
      { window := true, document := true, navigator := some { userAgent := some "" },
        bun := some { version := none }, deno := some { version := none }, process := none }
      rfl rfl
    have heval : getCurrentEnvironment
        { window := true, document := true, navigator := some { userAgent := some "" },
          bun := some { version := none }, deno := some { version := none }, process := none }
        = Except.ok { name := EnvironmentName.Browser, version := "unknown",
                      browserName := some "Unknown" } := rfl
    rw [heval] at heq
    cases heq
    exact absurd hname (by decide)
  · intro h
    obtain ⟨info, heq, hname⟩ := h bunDenoNodeAmbient rfl rfl rfl
    have heval : getCurrentEnvironment bunDenoNodeAmbient
        = Except.ok { name := EnvironmentName.Bun, version := "1.1.0",
                      browserName := none } := rfl
    rw [heval] at heq
    cases heq
    exact absurd hname (by decide)

/-- C1 (amended): detection is first-match over the registry order
Browser, Bun, Deno, Nodejs with a negative gate on Node.js.  In any
ambient state where the Browser descriptor does not match: if the Bun and
Deno globals are both present, detection yields Bun; if the Deno global
and a Node-like process.versions.node are present and the Bun global is
absent, detection yields Deno; and if process.versions.node and the Bun
global are both present, detection yields Bun and never Nodejs. -/
theorem detection_priority_first_match (a : Ambient)
    (hb : (a.window && a.document) = false) :
    (a.bun.isSome = true → a.deno.isSome = true →
      ∃ v, getCurrentEnvironment a
        = Except.ok { name := EnvironmentName.Bun, version := v, browserName := none })
    ∧ (a.deno.isSome = true → a.process.isSome = true →
        optTruthy ((a.process.bind ProcessVal.versions).bind VersionsVal.node) = true →
        a.bun.isSome = false →
        ∃ v, getCurrentEnvironment a
          = Except.ok { name := EnvironmentName.Deno, version := v, browserName := none })
    ∧ (a.process.isSome = true →
        optTruthy ((a.process.bind ProcessVal.versions).bind VersionsVal.node) = true →
        a.bun.isSome = true →
        (∃ v, getCurrentEnvironment a
          = Except.ok { name := EnvironmentName.Bun, version := v, browserName := none })
        ∧ ∀ info, getCurrentEnvironment a = Except.ok info →
            ¬ info.name = EnvironmentName.Nodejs) := by
  have hbun_hit : a.bun.isSome = true →
      getCurrentEnvironment a
        = Except.ok { name := EnvironmentName.Bun,
                      version := jsOrStr (a.bun.bind BunVal.version) "unknown",
                      browserName := none } := by
    intro hbun
    unfold getCurrentEnvironment environments
    rw [detectLoop_skip _ _ _ hb, detectLoop_hit _ _ _ hbun (by decide) _ rfl]
    rfl
  refine ⟨?_, ?_, ?_⟩
  · intro hbun _
    exact ⟨_, hbun_hit hbun⟩
  · intro hdeno _ _ hbun
    refine ⟨jsOrStr ((a.deno.bind DenoVal.version).bind DenoVersionVal.deno) "unknown", ?_⟩
    unfold getCurrentEnvironment environments
    rw [detectLoop_skip _ _ _ hb, detectLoop_skip _ _ _ hbun,
      detectLoop_hit _ _ _ hdeno (by decide) _ rfl]
    rfl
  · intro _ _ hbun
    refine ⟨⟨_, hbun_hit hbun⟩, ?_⟩
    intro info hinfo
    rw [hbun_hit hbun] at hinfo
    cases hinfo
    exact fun hc => EnvironmentName.noConfusion hc

/-- C1 witness: in the concrete ambient state where the Bun global, the
Deno global and a Node-like process are all present and the Browser pair
is absent, detection yields Bun. -/
theorem detection_priority_first_match_witness :
    ((bunDenoNodeAmbient.window && bunDenoNodeAmbient.document) = false)
    ∧ bunDenoNodeAmbient.bun.isSome = true
    ∧ bunDenoNodeAmbient.deno.isSome = true
    ∧ ∃ v, getCurrentEnvironment bunDenoNodeAmbient
        = Except.ok { name := EnvironmentName.Bun, version := v, browserName := none } :=
  ⟨rfl, rfl, rfl, (detection_priority_first_match bunDenoNodeAmbient rfl).1 rfl rfl⟩

/-- C2: for every ambient global state whose detection pass completes,
exactly one of the five positive flags isBrowser, isNodejs, isBun,
isDeno, isUnknown derived from the snapshot name is true. -/
theorem flags_mutually_exclusive (a : Ambient) (env : EnvironmentInfo)
    (_h : getCurrentEnvironment a = Except.ok env) :
    ([isBrowser env, isNodejs env, isBun env, isDeno env, isUnknown env].count true) = 1 := by
  rcases env with ⟨n, v, b⟩
  cases n <;> rfl

/-- C2 witness: the empty ambient state detects as the Unknown sentinel,
and exactly one flag (isUnknown) is true there. -/
theorem flags_mutually_exclusive_witness :
    getCurrentEnvironment emptyAmbient
      = Except.ok { name := EnvironmentName.Unknown, version := "unknown", browserName := none }
    ∧ ([isBrowser sampleUnknownEnv, isNodejs sampleUnknownEnv, isBun sampleUnknownEnv,
        isDeno sampleUnknownEnv, isUnknown sampleUnknownEnv].count true) = 1 :=
  ⟨rfl, flags_mutually_exclusive emptyAmbient sampleUnknownEnv rfl⟩

/-- C3: in every ambient global state where no registry descriptor
detects, getCurrentEnvironment returns the sentinel snapshot with name
Unknown, version "unknown", and no browser sub-name. -/
theorem no_match_yields_unknown_sentinel (a : Ambient)
    (h : ∀ e ∈ environments, e.detect a = false) :
    getCurrentEnvironment a
      = Except.ok { name := EnvironmentName.Unknown, version := "unknown", browserName := none } := by
  have h1 := h browserEnv (by simp [environments])
  have h2 := h bunEnv (by simp [environments])
  have h3 := h denoEnv (by simp [environments])
  have h4 := h nodejsEnv (by simp [environments])
  unfold getCurrentEnvironment environments
  rw [detectLoop_skip _ _ _ h1, detectLoop_skip _ _ _ h2,
    detectLoop_skip _ _ _ h3, detectLoop_skip _ _ _ h4]
  rfl

/-- C3 witness: in the empty ambient state every descriptor fails to
detect, and the result is the Unknown sentinel with version "unknown". -/
theorem no_match_yields_unknown_sentinel_witness :
    (∀ e ∈ environments, e.detect emptyAmbient = false)
    ∧ getCurrentEnvironment emptyAmbient
      = Except.ok { name := EnvironmentName.Unknown, version := "unknown",
                    browserName := none } := by
  have hd : ∀ e ∈ environments, e.detect emptyAmbient = false := by
    intro e he
    simp [environments] at he
    rcases he with rfl | rfl | rfl | rfl <;> rfl
  exact ⟨hd, no_match_yields_unknown_sentinel emptyAmbient hd⟩

/-- C4: contrary to the claim, detection is not total.  With window and
document present and a user agent containing a Safari marker but no
Version marker, the Safari branch of getBrowserVersion indexes past the
end of the split and throws, so getCurrentEnvironment throws; and the
older Node.js detection predicate reads process.versions.node without
optional chaining, so a process global with no versions field throws. -/
theorem detection_throws_on_safari_ua :
    getCurrentEnvironment
      { window := true, document := true,
        navigator := some { userAgent := some "Mobile Safari/605.1" },
        bun := none, deno := none, process := none }
      = Except.error "TypeError: Cannot read properties of undefined (reading 'split')"
    ∧ nodejsDetectLegacy
      { window := false, document := false, navigator := none,
        bun := none, deno := none,
        process := some { version := some "v16.0.0", versions := none } }
      = Except.error "TypeError: Cannot read properties of undefined (reading 'node')" :=
  ⟨rfl, rfl⟩

/-- C5: contrary to the claim, getBrowserVersion does not return a value
for every user agent: a user agent containing a Safari marker but no
Version marker makes the Safari branch call split on an undefined value,
which throws. -/
theorem getBrowserVersion_throws_without_version_marker :
    getBrowserVersion (some { userAgent := some "AppleWebKit/605.1.15 Mobile Safari/604.1" })
      = Except.error "TypeError: Cannot read properties of undefined (reading 'split')" := rfl

/-- C6: guard skip purity — a guard built by either factory with a false
condition returns undefined (sync) or a promise resolved to undefined
(async) and never invokes its callback, for every callback. -/
theorem guard_skip_purity {T : Type} (env : EnvironmentInfo)
    (cb : EnvironmentInfo → CallbackResult T) :
    getFunctionExecuteInEnvironment false env cb
      = { calls := 0, result := Except.ok none }
    ∧ getFunctionExecuteInEnvironmentAsync false env cb
      = { calls := 0, result := PromiseVal.resolved none } :=
  ⟨rfl, rfl⟩

/-- C7: sync contract enforcement — with a true condition, a synchronous
guard invokes the callback once; a promise-returning callback makes it
throw the sync contract violation error, a plain value is returned
unchanged, and a nullish result is normalized to undefined. -/
theorem sync_contract_enforcement {T : Type} (env : EnvironmentInfo)
    (cb : EnvironmentInfo → CallbackResult T) :
    (∀ p, cb env = CallbackResult.promise p →
      getFunctionExecuteInEnvironment true env cb
        = { calls := 1, result := Except.error "callback must be a sync function" })
    ∧ (∀ v, cb env = CallbackResult.value v →
        getFunctionExecuteInEnvironment true env cb
          = { calls := 1, result := Except.ok (some v) })
    ∧ (cb env = CallbackResult.nullish →
        getFunctionExecuteInEnvironment true env cb
          = { calls := 1, result := Except.ok none }) := by
  refine ⟨fun p hp => ?_, fun v hv => ?_, fun hn => ?_⟩ <;>
    simp [getFunctionExecuteInEnvironment, *]

/-- C7 witness: the three sync contract cases evaluated at a concrete
snapshot with concrete callbacks. -/
theorem sync_contract_enforcement_witness :
    getFunctionExecuteInEnvironment true sampleUnknownEnv
        (fun _ => CallbackResult.promise (PromiseVal.resolved (some (0 : Nat))))
      = { calls := 1, result := Except.error "callback must be a sync function" }
    ∧ getFunctionExecuteInEnvironment true sampleUnknownEnv
        (fun _ => CallbackResult.value (7 : Nat))
      = { calls := 1, result := Except.ok (some 7) }
    ∧ getFunctionExecuteInEnvironment true sampleUnknownEnv
        (fun _ => (CallbackResult.nullish : CallbackResult Nat))
      = { calls := 1, result := Except.ok none } :=
  ⟨(sync_contract_enforcement sampleUnknownEnv _).1 _ rfl,
   (sync_contract_enforcement sampleUnknownEnv _).2.1 _ rfl,
   (sync_contract_enforcement sampleUnknownEnv _).2.2 rfl⟩

/-- C8: async guard behaviour — with a true condition, a callback whose
result is a promise has that promise adopted (so a promise resolving to V
makes the guard resolve to V), and a callback whose result is not a
promise makes the guard reject with the async contract violation error;
with a false condition the guard resolves to undefined without invoking
the callback. -/
theorem async_guard_behaviour {T : Type} (env : EnvironmentInfo)
    (cb : EnvironmentInfo → CallbackResult T) :
    (∀ p, cb env = CallbackResult.promise p →
      getFunctionExecuteInEnvironmentAsync true env cb = { calls := 1, result := p })
    ∧ (∀ v, cb env = CallbackResult.value v →
        getFunctionExecuteInEnvironmentAsync true env cb
          = { calls := 1, result := PromiseVal.rejected "callback must return a Promise" })
    ∧ (cb env = CallbackResult.nullish →
        getFunctionExecuteInEnvironmentAsync true env cb
          = { calls := 1, result := PromiseVal.rejected "callback must return a Promise" })
    ∧ getFunctionExecuteInEnvironmentAsync false env cb
        = { calls := 0, result := PromiseVal.resolved none } := by
  refine ⟨fun p hp => ?_, fun v hv => ?_, fun hn => ?_, rfl⟩ <;>
    simp [getFunctionExecuteInEnvironmentAsync, *]

/-- C8 witness: the async guard cases evaluated at a concrete snapshot,
with a callback promise resolving to 42 passed through. -/
theorem async_guard_behaviour_witness :
    getFunctionExecuteInEnvironmentAsync true sampleUnknownEnv
        (fun _ => CallbackResult.promise (PromiseVal.resolved (some (42 : Nat))))
      = { calls := 1, result := PromiseVal.resolved (some 42) }
    ∧ getFunctionExecuteInEnvironmentAsync true sampleUnknownEnv
        (fun _ => CallbackResult.value (5 : Nat))
      = { calls := 1, result := PromiseVal.rejected "callback must return a Promise" }
    ∧ getFunctionExecuteInEnvironmentAsync false sampleUnknownEnv
        (fun _ => CallbackResult.value (5 : Nat))
      = { calls := 0, result := PromiseVal.resolved none } :=
  ⟨(async_guard_behaviour sampleUnknownEnv _).1 _ rfl,
   (async_guard_behaviour sampleUnknownEnv _).2.1 _ rfl,
   (async_guard_behaviour sampleUnknownEnv _).2.2.2⟩

/-- C9: in a snapshot whose name is the Unknown sentinel, every negative
guard — sync and async, for Browser, Nodejs, Bun and Deno — returns
undefined (or a promise resolved to undefined) without invoking its
callback, because each condition conjoins the negation of the
isUnrecognized flag. -/
theorem negative_guards_blocked_on_unknown {T : Type} (env : EnvironmentInfo)
    (h : env.name = EnvironmentName.Unknown)
    (cbS cbA : EnvironmentInfo → CallbackResult T) :
    onNotBrowser env cbS = { calls := 0, result := Except.ok none }
    ∧ onNotNodejs env cbS = { calls := 0, result := Except.ok none }
    ∧ onNotBun env cbS = { calls := 0, result := Except.ok none }
    ∧ onNotDeno env cbS = { calls := 0, result := Except.ok none }
    ∧ onNotBrowserAsync env cbA = { calls := 0, result := PromiseVal.resolved none }
    ∧ onNotNodejsAsync env cbA = { calls := 0, result := PromiseVal.resolved none }
    ∧ onNotBunAsync env cbA = { calls := 0, result := PromiseVal.resolved none }
    ∧ onNotDenoAsync env cbA = { calls := 0, result := PromiseVal.resolved none } := by
  refine ⟨?_, ?_, ?_, ?_, ?_, ?_, ?_, ?_⟩ <;>
    simp [onNotBrowser, onNotNodejs, onNotBun, onNotDeno,
      onNotBrowserAsync, onNotNodejsAsync, onNotBunAsync, onNotDenoAsync,
      getFunctionExecuteInEnvironment, getFunctionExecuteInEnvironmentAsync, h]

/-- C9 witness: all eight negative guards skip at the concrete Unknown
snapshot with concrete callbacks. -/
theorem negative_guards_blocked_on_unknown_witness :
    sampleUnknownEnv.name = EnvironmentName.Unknown
    ∧ (onNotBrowser sampleUnknownEnv (fun _ => CallbackResult.value (1 : Nat))
        = { calls := 0, result := Except.ok none }
      ∧ onNotNodejs sampleUnknownEnv (fun _ => CallbackResult.value (1 : Nat))
        = { calls := 0, result := Except.ok none }
      ∧ onNotBun sampleUnknownEnv (fun _ => CallbackResult.value (1 : Nat))
        = { calls := 0, result := Except.ok none }
      ∧ onNotDeno sampleUnknownEnv (fun _ => CallbackResult.value (1 : Nat))
        = { calls := 0, result := Except.ok none }
      ∧ onNotBrowserAsync sampleUnknownEnv
          (fun _ => CallbackResult.promise (PromiseVal.resolved (some (1 : Nat))))
        = { calls := 0, result := PromiseVal.resolved none }
      ∧ onNotNodejsAsync sampleUnknownEnv
          (fun _ => CallbackResult.promise (PromiseVal.resolved (some (1 : Nat))))
        = { calls := 0, result := PromiseVal.resolved none }
      ∧ onNotBunAsync sampleUnknownEnv
          (fun _ => CallbackResult.promise (PromiseVal.resolved (some (1 : Nat))))
        = { calls := 0, result := PromiseVal.resolved none }
      ∧ onNotDenoAsync sampleUnknownEnv
          (fun _ => CallbackResult.promise (PromiseVal.resolved (some (1 : Nat))))
        = { calls := 0, result := PromiseVal.resolved none }) :=
  ⟨rfl, negative_guards_blocked_on_unknown sampleUnknownEnv rfl _ _⟩

/-- C10: contract checking happens only after the condition is found
true — a guard with a false condition yields undefined (or a promise
resolved to undefined) even for a contract-violating callback (a
promise-returning callback to the sync guard, a non-promise-returning
callback to the async guard), and never throws or rejects. -/
theorem skip_bypasses_contract_check {T : Type} (env : EnvironmentInfo)
    (cb : EnvironmentInfo → CallbackResult T) :
    ((∃ p, cb env = CallbackResult.promise p) →
      getFunctionExecuteInEnvironment false env cb
        = { calls := 0, result := Except.ok none })
    ∧ ((∀ p, ¬ cb env = CallbackResult.promise p) →
        getFunctionExecuteInEnvironmentAsync false env cb
          = { calls := 0, result := PromiseVal.resolved none }) :=
  ⟨fun _ => rfl, fun _ => rfl⟩

/-- C10 witness: a promise-returning callback given to a skipped sync
guard, and a plain-value callback given to a skipped async guard, both
yield undefined with zero callback invocations. -/
theorem skip_bypasses_contract_check_witness :
    (∃ p, (fun _ : EnvironmentInfo =>
        CallbackResult.promise (PromiseVal.resolved (none : Option Nat))) sampleUnknownEnv
      = CallbackResult.promise p)
    ∧ getFunctionExecuteInEnvironment false sampleUnknownEnv
        (fun _ => CallbackResult.promise (PromiseVal.resolved (none : Option Nat)))
      = { calls := 0, result := Except.ok none }
    ∧ (∀ p, ¬ (fun _ : EnvironmentInfo => CallbackResult.value (3 : Nat)) sampleUnknownEnv
        = CallbackResult.promise p)
    ∧ getFunctionExecuteInEnvironmentAsync false sampleUnknownEnv
        (fun _ => CallbackResult.value (3 : Nat))
      = { calls := 0, result := PromiseVal.resolved none } :=
  ⟨⟨_, rfl⟩,
   (skip_bypasses_contract_check sampleUnknownEnv _).1 ⟨_, rfl⟩,
   fun _ hp => CallbackResult.noConfusion hp,
   (skip_bypasses_contract_check sampleUnknownEnv _).2
     (fun _ hp => CallbackResult.noConfusion hp)⟩
